import Mathlib

/-!
Verification development for the anime scraping pipeline.

The embedded code comes from:
* `scraper.js` (the Node scraper using @consumet/extensions):
  `sanitizeFilename`, `getHash`, `processAnimeData`, `saveAnime`, `createIndex`,
  `processBatch`, `fetchAnimeInfo` and the dedup loop of `main`;
* `watch.js` / `app.js` (the browser consumer):
  `sanitizeFilename`, `hashString` (the in-browser MD5), `loadAnimeData`'s
  filename recomputation, and the episode sort of `renderAnimeDetail`.

JavaScript 32-bit bitwise arithmetic is modelled on `Nat` with explicit
truncation modulo 2^32; reading a JS `Int32` back as an unsigned bit pattern
is exactly this representation.  JS strings are UTF-16: `str.length` counts
code units and `str.charCodeAt(i)` returns the i-th code unit, which is how
the browser MD5 consumes its input.  Node's `crypto.createHash('md5')`
consumes the UTF-8 bytes of the string.
-/

set_option maxRecDepth 10000

namespace AnimeScraper

/-- Truncation to 32 bits, the effect of JavaScript `Int32` bitwise results
read back as unsigned numbers. -/
def w32 (n : Nat) : Nat := n % 4294967296

/-- JavaScript 32-bit bitwise NOT `~x` for `x < 2^32`, read back unsigned. -/
def notW (x : Nat) : Nat := x ^^^ 4294967295

/-- Character class of the JavaScript regexp `\s` (also the set trimmed by
`String.prototype.trim`): ASCII whitespace, NBSP, BOM, and the Unicode
space separators and line separators. -/
def isJsWhitespace (c : Char) : Bool :=
  ([' ', '\t', '\n', '\r', '\u000B', '\u000C', '\u00A0', '\uFEFF',
    '\u1680', '\u2000', '\u2001', '\u2002', '\u2003', '\u2004', '\u2005',
    '\u2006', '\u2007', '\u2008', '\u2009', '\u200A', '\u2028', '\u2029',
    '\u202F', '\u205F', '\u3000'] : List Char).contains c

/-- Characters removed by the scrapers' first replace,
`title.replace(/[<>:"\/\\|?*]/g, '')`. -/
def isIllegalFilenameChar (c : Char) : Bool :=
  (['<', '>', ':', '"', '/', '\\', '|', '?', '*'] : List Char).contains c

/-- Model of `safe.replace(/\s+/g, '_')`: every maximal run of whitespace
becomes a single underscore.  The Boolean argument records whether the
previous character belonged to a whitespace run. -/
def collapseWsAux : Bool → List Char → List Char
  | _, [] => []
  | prevWs, c :: rest =>
    if isJsWhitespace c then
      if prevWs then collapseWsAux true rest
      else '_' :: collapseWsAux true rest
    else c :: collapseWsAux false rest

/-- Model of JavaScript `String.prototype.trim`: strip leading and trailing
whitespace. -/
def jsTrim (l : List Char) : List Char :=
  ((l.dropWhile isJsWhitespace).reverse.dropWhile isJsWhitespace).reverse

/-- `sanitizeFilename` from scraper.js (identically in watch.js):
remove the filename-illegal characters, collapse whitespace runs to single
underscores, trim, and truncate to 200 characters
(`safe.substring(0, 200)`). -/
def sanitizeFilename (title : String) : String :=
  let noIllegal := title.data.filter (fun c => !(isIllegalFilenameChar c))
  let collapsed := collapseWsAux false noIllegal
  let trimmed := jsTrim collapsed
  String.mk (trimmed.take 200)

/-- The browser MD5's `rotateLeft(x, n)`: `(x << n) | (x >>> (32 - n))`. -/
def rotateLeft (x n : Nat) : Nat := w32 (x <<< n) ||| (x >>> (32 - n))

/-- The browser MD5's `addUnsigned(x, y)`, transcribed literally; a JS
non-zero test (`if (v)`) becomes a `≠ 0` test. -/
def addUnsigned (x y : Nat) : Nat :=
  let x8 := x &&& 2147483648
  let y8 := y &&& 2147483648
  let x4 := x &&& 1073741824
  let y4 := y &&& 1073741824
  let result := (x &&& 1073741823) + (y &&& 1073741823)
  if x4 &&& y4 ≠ 0 then result ^^^ 2147483648 ^^^ x8 ^^^ y8
  else if x4 ||| y4 ≠ 0 then
    if result &&& 1073741824 ≠ 0 then result ^^^ 3221225472 ^^^ x8 ^^^ y8
    else result ^^^ 1073741824 ^^^ x8 ^^^ y8
  else result ^^^ x8 ^^^ y8

/-- MD5 round function `F(x, y, z) = (x & y) | (~x & z)`. -/
def md5F (x y z : Nat) : Nat := (x &&& y) ||| (notW x &&& z)

/-- MD5 round function `G(x, y, z) = (x & z) | (y & ~z)`. -/
def md5G (x y z : Nat) : Nat := (x &&& z) ||| (y &&& notW z)

/-- MD5 round function `H(x, y, z) = x ^ y ^ z`. -/
def md5H (x y z : Nat) : Nat := x ^^^ y ^^^ z

/-- MD5 round function `I(x, y, z) = y ^ (x | ~z)`. -/
def md5I (x y z : Nat) : Nat := y ^^^ (x ||| notW z)

/-- The browser MD5's `FF` step. -/
def md5FF (a b c d x s ac : Nat) : Nat :=
  addUnsigned (rotateLeft (addUnsigned a (addUnsigned (addUnsigned (md5F b c d) x) ac)) s) b

/-- The browser MD5's `GG` step. -/
def md5GG (a b c d x s ac : Nat) : Nat :=
  addUnsigned (rotateLeft (addUnsigned a (addUnsigned (addUnsigned (md5G b c d) x) ac)) s) b

/-- The browser MD5's `HH` step. -/
def md5HH (a b c d x s ac : Nat) : Nat :=
  addUnsigned (rotateLeft (addUnsigned a (addUnsigned (addUnsigned (md5H b c d) x) ac)) s) b

/-- The browser MD5's `II` step. -/
def md5II (a b c d x s ac : Nat) : Nat :=
  addUnsigned (rotateLeft (addUnsigned a (addUnsigned (addUnsigned (md5I b c d) x) ac)) s) b

/-- The browser MD5's `convertToWordArray`, over the list of input units
(`charCodeAt` values).  The JS `new Array(...)` starts as `undefined`
entries which coerce to `0` under `|`, hence the zero-initialised list;
`charCode << bytePosition` is an `Int32` shift, hence the `w32`; the final
two words are the bit length, `len << 3` and `len >>> 29`. -/
def convertToWordArray (codes : List Nat) : List Nat :=
  let len := codes.length
  let lWordCount := (((len + 8) - ((len + 8) % 64)) / 64 + 1) * 16
  let arr0 := List.replicate lWordCount 0
  let arr1 := (List.range len).foldl
    (fun arr i =>
      arr.set (i / 4) ((arr.getD (i / 4) 0) ||| w32 ((codes.getD i 0) <<< ((i % 4) * 8))))
    arr0
  let arr2 := arr1.set (len / 4) ((arr1.getD (len / 4) 0) ||| (128 <<< ((len % 4) * 8)))
  let arr3 := arr2.set (lWordCount - 2) (w32 (len * 8))
  arr3.set (lWordCount - 1) (len >>> 29)

/-- Lowercase hexadecimal digit, as produced by JS `Number.toString(16)`. -/
def hexDigit (n : Nat) : Char := if n < 10 then Char.ofNat (48 + n) else Char.ofNat (87 + n)

/-- Two lowercase hexadecimal digits of a byte, the zero-padded pair built
inside the browser MD5's `wordToHex`. -/
def byteToHex (b : Nat) : String := String.mk [hexDigit (b / 16), hexDigit (b % 16)]

/-- The browser MD5's `wordToHex`: the four bytes of a 32-bit word, least
significant byte first, each as two lowercase hex digits. -/
def wordToHex (v : Nat) : String :=
  byteToHex (v &&& 255) ++ byteToHex ((v >>> 8) &&& 255) ++
    byteToHex ((v >>> 16) &&& 255) ++ byteToHex ((v >>> 24) &&& 255)

/-- One 16-word block of the browser MD5's main loop, transcribed line by
line from the JS source (with `0x2441453` and `0x4881D05` the two
constants the source writes without a leading zero). -/
def md5Block (x : List Nat) (k : Nat) : Nat × Nat × Nat × Nat → Nat × Nat × Nat × Nat
  | (a0, b0, c0, d0) =>
    let w := fun i => x.getD (k + i) 0
    let a := md5FF a0 b0 c0 d0 (w 0) 7 3614090360
    let d := md5FF d0 a b0 c0 (w 1) 12 3905402710
    let c := md5FF c0 d a b0 (w 2) 17 606105819
    let b := md5FF b0 c d a (w 3) 22 3250441966
    let a := md5FF a b c d (w 4) 7 4118548399
    let d := md5FF d a b c (w 5) 12 1200080426
    let c := md5FF c d a b (w 6) 17 2821735955
    let b := md5FF b c d a (w 7) 22 4249261313
    let a := md5FF a b c d (w 8) 7 1770035416
    let d := md5FF d a b c (w 9) 12 2336552879
    let c := md5FF c d a b (w 10) 17 4294925233
    let b := md5FF b c d a (w 11) 22 2304563134
    let a := md5FF a b c d (w 12) 7 1804603682
    let d := md5FF d a b c (w 13) 12 4254626195
    let c := md5FF c d a b (w 14) 17 2792965006
    let b := md5FF b c d a (w 15) 22 1236535329
    let a := md5GG a b c d (w 1) 5 4129170786
    let d := md5GG d a b c (w 6) 9 3225465664
    let c := md5GG c d a b (w 11) 14 643717713
    let b := md5GG b c d a (w 0) 20 3921069994
    let a := md5GG a b c d (w 5) 5 3593408605
    let d := md5GG d a b c (w 10) 9 38016083
    let c := md5GG c d a b (w 15) 14 3634488961
    let b := md5GG b c d a (w 4) 20 3889429448
    let a := md5GG a b c d (w 9) 5 568446438
    let d := md5GG d a b c (w 14) 9 3275163606
    let c := md5GG c d a b (w 3) 14 4107603335
    let b := md5GG b c d a (w 8) 20 1163531501
    let a := md5GG a b c d (w 13) 5 2850285829
    let d := md5GG d a b c (w 2) 9 4243563512
    let c := md5GG c d a b (w 7) 14 1735328473
    let b := md5GG b c d a (w 12) 20 2368359562
    let a := md5HH a b c d (w 5) 4 4294588738
    let d := md5HH d a b c (w 8) 11 2272392833
    let c := md5HH c d a b (w 11) 16 1839030562
    let b := md5HH b c d a (w 14) 23 4259657740
    let a := md5HH a b c d (w 1) 4 2763975236
    let d := md5HH d a b c (w 4) 11 1272893353
    let c := md5HH c d a b (w 7) 16 4139469664
    let b := md5HH b c d a (w 10) 23 3200236656
    let a := md5HH a b c d (w 13) 4 681279174
    let d := md5HH d a b c (w 0) 11 3936430074
    let c := md5HH c d a b (w 3) 16 3572445317
    let b := md5HH b c d a (w 6) 23 76029189
    let a := md5HH a b c d (w 9) 4 3654602809
    let d := md5HH d a b c (w 12) 11 3873151461
    let c := md5HH c d a b (w 15) 16 530742520
    let b := md5HH b c d a (w 2) 23 3299628645
    let a := md5II a b c d (w 0) 6 4096336452
    let d := md5II d a b c (w 7) 10 1126891415
    let c := md5II c d a b (w 14) 15 2878612391
    let b := md5II b c d a (w 5) 21 4237533241
    let a := md5II a b c d (w 12) 6 1700485571
    let d := md5II d a b c (w 3) 10 2399980690
    let c := md5II c d a b (w 10) 15 4293915773
    let b := md5II b c d a (w 1) 21 2240044497
    let a := md5II a b c d (w 8) 6 1873313359
    let d := md5II d a b c (w 15) 10 4264355552
    let c := md5II c d a b (w 6) 15 2734768916
    let b := md5II b c d a (w 13) 21 1309151649
    let a := md5II a b c d (w 4) 6 4149444226
    let d := md5II d a b c (w 11) 10 3174756917
    let c := md5II c d a b (w 2) 15 718787259
    let b := md5II b c d a (w 9) 21 3951481745
    (addUnsigned a a0, addUnsigned b b0, addUnsigned c c0, addUnsigned d d0)

/-- The browser MD5's main loop and output: the `for (k = 0; k < x.length;
k += 16)` loop over blocks from the MD5 initial state, then the
concatenated hex of the four state words (already lowercase, so the JS
`.toLowerCase()` is the identity).  Word arrays built by
`convertToWordArray` always have a length that is a multiple of 16. -/
def md5OfWords (x : List Nat) : String :=
  let st := (List.range (x.length / 16)).foldl
    (fun st j => md5Block x (16 * j) st) (1732584193, 4023233417, 2562383102, 271733878)
  wordToHex st.1 ++ wordToHex st.2.1 ++ wordToHex st.2.2.1 ++ wordToHex st.2.2.2

/-- Standard UTF-8 encoding of one Unicode code point, as a list of bytes. -/
def utf8EncodeChar (c : Nat) : List Nat :=
  if c < 128 then [c]
  else if c < 2048 then [192 ||| (c >>> 6), 128 ||| (c &&& 63)]
  else if c < 65536 then
    [224 ||| (c >>> 12), 128 ||| ((c >>> 6) &&& 63), 128 ||| (c &&& 63)]
  else
    [240 ||| (c >>> 18), 128 ||| ((c >>> 12) &&& 63),
     128 ||| ((c >>> 6) &&& 63), 128 ||| (c &&& 63)]

/-- The UTF-8 byte sequence of a string. -/
def utf8Bytes (s : String) : List Nat :=
  (s.data.map (fun c => utf8EncodeChar c.toNat)).flatten

/-- Standard UTF-16 encoding of one Unicode code point, as a list of 16-bit
code units (a surrogate pair above the BMP). -/
def utf16EncodeChar (c : Nat) : List Nat :=
  if c < 65536 then [c]
  else [55296 + (c - 65536) / 1024, 56320 + (c - 65536) % 1024]

/-- The UTF-16 code units of a string: what JS `str.length` counts and
`str.charCodeAt(i)` returns. -/
def utf16CodeUnits (s : String) : List Nat :=
  (s.data.map (fun c => utf16EncodeChar c.toNat)).flatten

/-- Modelled from the spec: `getHash` in scraper.js is
`crypto.createHash('md5').update(str).digest('hex').substring(0, 8)`;
Node's crypto library (not part of this repository) computes the standard
MD5 digest of the UTF-8 bytes of the string, which the spec describes as
"the first 8 hex characters of a 128-bit cryptographic digest of the UTF-8
bytes".  The padding and rounds reuse the in-repo MD5 core, which is the
standard MD5 algorithm when fed genuine byte sequences; this is validated
against the RFC 1321 test vectors below (`md5_rfc1321_empty`,
`md5_rfc1321_abc`). -/
def getHash (str : String) : String :=
  (md5OfWords (convertToWordArray (utf8Bytes str))).take 8

/-- `hashString` from watch.js / app.js: the in-browser MD5 applied to the
JS string and truncated to 8 hex characters.  Its `convertToWordArray`
reads `str.length` and `str.charCodeAt(i)`, i.e. it consumes the UTF-16
code units of the string as if they were single bytes. -/
def hashString (str : String) : String :=
  (md5OfWords (convertToWordArray (utf16CodeUnits str))).take 8

/-- Modelled from the spec: JavaScript's built-in `parseInt` (not part of
this repository) on decimal input, as used by the episode comparator
`parseInt(a.episode_number) || 0`: skip leading whitespace, accept an
optional sign, then read the longest prefix of decimal digits; `none`
stands for `NaN` when no digit follows. -/
def jsParseIntDigits (l : List Char) : Option Nat :=
  let ds := l.takeWhile Char.isDigit
  if ds.isEmpty then none
  else some (ds.foldl (fun acc c => acc * 10 + (c.toNat - 48)) 0)

/-- JavaScript `parseInt(s)` for decimal input (sign handling included). -/
def jsParseInt (s : String) : Option Int :=
  match s.data.dropWhile isJsWhitespace with
  | '-' :: rest => (jsParseIntDigits rest).map (fun n => -(n : Int))
  | '+' :: rest => (jsParseIntDigits rest).map (fun n => (n : Int))
  | l => (jsParseIntDigits l).map (fun n => (n : Int))

/-- JavaScript `x || y` where `x` is a possibly-undefined string: the empty
string and `undefined` are falsy and fall through to `y`. -/
def jsOrStr (x : Option String) (y : String) : String :=
  match x with
  | some s => if s = "" then y else s
  | none => y

/-- JavaScript `x || y` where both sides are possibly-undefined strings. -/
def jsOrStrOpt (x y : Option String) : Option String :=
  match x with
  | some s => if s = "" then y else some s
  | none => y

/-- JavaScript `x || y` where `x` is a possibly-undefined number: `0` and
`undefined` are falsy and fall through to `y`. -/
def jsOrNat (x : Option Nat) (y : Nat) : Nat :=
  match x with
  | some n => if n = 0 then y else n
  | none => y

/-- One episode as returned by the consumet provider's `fetchAnimeInfo`
(`detailedInfo.episodes` entries: `ep.id`, `ep.number`, `ep.title`). -/
structure ConsumetEpisode where
  id : String
  number : Option Nat
  title : Option String
deriving DecidableEq, Repr

/-- One listing entry as returned by the category fetches
(`data.results` items), the `basicInfo` argument of `processAnimeData`. -/
structure BasicAnime where
  id : String
  title : String
  url : Option String
  japaneseTitle : Option String
  image : Option String
  type : Option String
  episodes : Option Nat
  sub : Option Nat
  dub : Option Nat
deriving DecidableEq, Repr

/-- The detailed record returned by `animekai.fetchAnimeInfo`, the
`detailedInfo` argument of `processAnimeData`; every field may be absent. -/
structure AnimeInfo where
  title : Option String
  url : Option String
  japaneseTitle : Option String
  description : Option String
  image : Option String
  genres : Option (List String)
  status : Option String
  type : Option String
  studios : Option (List String)
  duration : Option String
  season : Option String
  releaseDate : Option String
  producers : Option (List String)
  rating : Option Nat
  totalEpisodes : Option Nat
  episodes : Option (List ConsumetEpisode)
deriving DecidableEq, Repr

/-- One episode record of a written Artifact, as built by the episode map
inside `processAnimeData`. -/
structure Episode where
  episode_number : String
  episode_id : String
  episode_title : String
  has_videos : Bool
deriving DecidableEq, Repr

/-- The Artifact document written by `saveAnime`: the object literal
returned by `processAnimeData`. -/
structure Artifact where
  title : String
  animekai_id : String
  url : Option String
  alternative_titles : String
  description : String
  cover_image : Option String
  genres : List String
  status : String
  type : String
  studio : String
  duration : String
  season : String
  released : String
  producers : List String
  rating : Option Nat
  total_episodes : Nat
  available_episodes : Nat
  sub_episodes : Nat
  dub_episodes : Nat
  episodes : List Episode
  scraped_at : String
deriving DecidableEq, Repr

/-- JavaScript `String(ep.number || '')`: a missing or zero number becomes
the empty string, otherwise its decimal representation. -/
def episodeNumberString (n : Option Nat) : String :=
  match n with
  | some k => if k = 0 then "" else toString k
  | none => ""

/-- JavaScript template interpolation of a possibly-undefined number
(`Episode ${ep.number}` prints `undefined` when absent). -/
def jsTemplateNum (n : Option Nat) : String :=
  match n with
  | some k => toString k
  | none => "undefined"

/-- The episode map of `processAnimeData`:
`episode_number: String(ep.number || '')`, `episode_id: ep.id`,
`episode_title: ep.title || 'Episode ' + ep.number`, `has_videos: true`. -/
def mkScrapedEpisode (ep : ConsumetEpisode) : Episode :=
  { episode_number := episodeNumberString ep.number
  , episode_id := ep.id
  , episode_title := jsOrStr ep.title ("Episode " ++ jsTemplateNum ep.number)
  , has_videos := true }

/-- `detailedInfo?.episodes || []` at the top of `processAnimeData`. -/
def consumetEpisodes (detailedInfo : Option AnimeInfo) : List ConsumetEpisode :=
  (detailedInfo.bind AnimeInfo.episodes).getD []

/-- `processAnimeData(basicInfo, detailedInfo)` from scraper.js, plus the
`scraped_at: new Date().toISOString()` timestamp passed in as `now`.
Optional chaining `detailedInfo?.f` is `detailedInfo.bind f`; `||`
fallbacks keep JS falsiness (empty string and `0` fall through);
`detailedInfo?.studios?.join(', ')` is the comma join of the studio list;
`rating || null` turns a zero rating into `null`. -/
def processAnimeData (basicInfo : BasicAnime) (detailedInfo : Option AnimeInfo)
    (now : String) : Artifact :=
  let episodes := (consumetEpisodes detailedInfo).map mkScrapedEpisode
  { title := jsOrStr (detailedInfo.bind AnimeInfo.title) basicInfo.title
  , animekai_id := basicInfo.id
  , url := jsOrStrOpt basicInfo.url (detailedInfo.bind AnimeInfo.url)
  , alternative_titles :=
      jsOrStr (detailedInfo.bind AnimeInfo.japaneseTitle) (jsOrStr basicInfo.japaneseTitle "")
  , description := jsOrStr (detailedInfo.bind AnimeInfo.description) ""
  , cover_image := jsOrStrOpt (detailedInfo.bind AnimeInfo.image) basicInfo.image
  , genres := (detailedInfo.bind AnimeInfo.genres).getD []
  , status := jsOrStr (detailedInfo.bind AnimeInfo.status) ""
  , type := jsOrStr basicInfo.type (jsOrStr (detailedInfo.bind AnimeInfo.type) "")
  , studio := jsOrStr ((detailedInfo.bind AnimeInfo.studios).map (String.intercalate ", ")) ""
  , duration := jsOrStr (detailedInfo.bind AnimeInfo.duration) ""
  , season := jsOrStr (detailedInfo.bind AnimeInfo.season) ""
  , released := jsOrStr (detailedInfo.bind AnimeInfo.releaseDate) ""
  , producers := (detailedInfo.bind AnimeInfo.producers).getD []
  , rating :=
      match detailedInfo.bind AnimeInfo.rating with
      | some 0 => none
      | r => r
  , total_episodes :=
      jsOrNat (detailedInfo.bind AnimeInfo.totalEpisodes)
        (jsOrNat basicInfo.episodes episodes.length)
  , available_episodes := episodes.length
  , sub_episodes := jsOrNat basicInfo.sub 0
  , dub_episodes := jsOrNat basicInfo.dub 0
  , episodes := episodes
  , scraped_at := now }

/-- The filename template of `saveAnime`:
`sanitizeFilename(animeData.title) + '_' + getHash(animeData.animekai_id)
+ '.json'`.  The hash input is the provider id, not the url. -/
def saveAnimeFilename (animeData : Artifact) : String :=
  sanitizeFilename animeData.title ++ "_" ++ getHash animeData.animekai_id ++ ".json"

/-- Filesystem operations a store routine may perform, for stating what
`saveAnime` does on disk. -/
inductive FsOp where
  | writeFile (path : String) (content : Artifact)
  | rename (src dst : String)
deriving DecidableEq, Repr

/-- `CONFIG.animeDir` from scraper.js. -/
def animeDirConfig : String := "../scraped_data/current/anime"

/-- `saveAnime(animeData)` from scraper.js: a single direct
`fs.writeFileSync(filepath, ...)` of the document at its final path
(`path.join(CONFIG.animeDir, filename)`), returning the filename. -/
def saveAnime (animeData : Artifact) : List FsOp × String :=
  let filename := saveAnimeFilename animeData
  let filepath := animeDirConfig ++ "/" ++ filename
  ([FsOp.writeFile filepath animeData], filename)

/-- The predicate the spec's atomicity sentence describes: the document is
first written to a temporary location and then renamed onto its final
path. -/
def isWriteTempThenRename (ops : List FsOp) (finalPath : String) : Prop :=
  ∃ tmp content, tmp ≠ finalPath ∧
    ops = [FsOp.writeFile tmp content, FsOp.rename tmp finalPath]

/-- The filename recomputed by `loadAnimeData` in watch.js (identically in
app.js): `sanitizeFilename(animeInfo.title) + '_' +
hashString(animeInfo.url) + '.json'`.  The hash input is the url taken
from the index entry. -/
def loadAnimeDataFilename (title url : String) : String :=
  sanitizeFilename title ++ "_" ++ hashString url ++ ".json"

/-- One entry of the `anime_list` projection built by `createIndex`; note
there is no `url` field. -/
structure IndexEntry where
  title : String
  animekai_id : String
  cover_image : Option String
  status : String
  type : String
  genres : List String
  total_episodes : Nat
  available_episodes : Nat
deriving DecidableEq, Repr

/-- The index document written by `createIndex`. -/
structure AnimeIndex where
  total_anime : Nat
  total_episodes : Nat
  last_updated : String
  anime_list : List IndexEntry
deriving DecidableEq, Repr

/-- The per-artifact summary entry, the map body inside `createIndex`. -/
def indexEntryOf (a : Artifact) : IndexEntry :=
  { title := a.title
  , animekai_id := a.animekai_id
  , cover_image := a.cover_image
  , status := a.status
  , type := a.type
  , genres := a.genres
  , total_episodes := a.total_episodes
  , available_episodes := a.available_episodes }

/-- `createIndex(animeList)` from scraper.js, with the
`last_updated: new Date().toISOString()` timestamp passed in as `now`.
`total_episodes` is the reduce over `a.available_episodes || 0` (the
`|| 0` is the identity here since the field is always a number). -/
def createIndex (animeList : List Artifact) (now : String) : AnimeIndex :=
  { total_anime := animeList.length
  , total_episodes := animeList.foldl (fun sum a => sum + a.available_episodes) 0
  , last_updated := now
  , anime_list := animeList.map indexEntryOf }

/-- Sort key of the episode comparator in `renderAnimeDetail` (watch.js and
app.js) and `playEpisode`: `parseInt(ep.episode_number) || 0`, so a
non-numeric ordinal falls back to rank 0. -/
def epSortKey (e : Episode) : Int := (jsParseInt e.episode_number).getD 0

/-- Stable insertion of one episode into an already comparator-sorted list:
walk past strictly smaller keys, insert before the first key that is not
smaller.  Equal-key elements keep their original relative order, which is
the ECMAScript stable-sort guarantee. -/
def insertByKey (x : Episode) : List Episode → List Episode
  | [] => [x]
  | y :: ys => if epSortKey y < epSortKey x then y :: insertByKey x ys else x :: y :: ys

/-- Model of `[...episodes].sort((a, b) => (parseInt(a.episode_number)||0)
- (parseInt(b.episode_number)||0))` from `renderAnimeDetail`:
ECMAScript `Array.prototype.sort` with a consistent comparator is exactly a
stable sort ascending by the comparator key, here realised as a stable
insertion sort. -/
def jsSortEpisodes (eps : List Episode) : List Episode :=
  eps.foldr insertByKey []

/-- `fetchAnimeInfo(animeId)` from scraper.js: the provider call is the
oracle `fetchRaw`; an exception is caught inside, logged, and turned into
`null` — this function itself never throws. -/
def fetchAnimeInfo (fetchRaw : String → Except String AnimeInfo)
    (animeId : String) : Option AnimeInfo :=
  match fetchRaw animeId with
  | Except.ok info => some info
  | Except.error _ => none

/-- The run state threaded through `processBatch`: files written so far by
`saveAnime`, the `results` array, and the error log lines. -/
structure RunState where
  savedFiles : List (String × Artifact)
  results : List Artifact
  errorLogs : List String
deriving DecidableEq, Repr

/-- The log line of `processBatch`'s catch block:
`Error processing ${anime.title}: ${error.message}`. -/
def processBatchLog (anime : BasicAnime) (e : String) : String :=
  "Error processing " ++ anime.title ++ ": " ++ e

/-- The artifact assembled for one batch entry inside `processBatch`:
`processAnimeData(anime, await fetchAnimeInfo(anime.id))`. -/
def processedOf (fetchRaw : String → Except String AnimeInfo) (now : String)
    (anime : BasicAnime) : Artifact :=
  processAnimeData anime (fetchAnimeInfo fetchRaw anime.id) now

/-- One iteration of `processBatch`'s `for...of` loop with its try/catch:
the filesystem write of `saveAnime` is the only throwing step (the oracle
`writeResult`, per target id); on success the file is recorded and the
artifact pushed onto `results`, on an exception the error is logged and the
loop moves on. -/
def processBatchStep (fetchRaw : String → Except String AnimeInfo)
    (writeResult : String → Except String Unit) (now : String)
    (st : RunState) (anime : BasicAnime) : RunState :=
  let processed := processedOf fetchRaw now anime
  match writeResult anime.id with
  | Except.ok _ =>
      { st with
        savedFiles := st.savedFiles ++ [(saveAnimeFilename processed, processed)]
      , results := st.results ++ [processed] }
  | Except.error e =>
      { st with errorLogs := st.errorLogs ++ [processBatchLog anime e] }

/-- `processBatch(batch)` from scraper.js: the sequential loop over the
batch, threading the run state. -/
def processBatch (fetchRaw : String → Except String AnimeInfo)
    (writeResult : String → Except String Unit) (now : String)
    (st : RunState) (batch : List BasicAnime) : RunState :=
  batch.foldl (processBatchStep fetchRaw writeResult now) st

/-- The saved-file entry a batch member contributes, if its write
succeeds. -/
def batchSavedEntry (fetchRaw : String → Except String AnimeInfo)
    (writeResult : String → Except String Unit) (now : String)
    (anime : BasicAnime) : Option (String × Artifact) :=
  match writeResult anime.id with
  | Except.ok _ =>
      some (saveAnimeFilename (processedOf fetchRaw now anime), processedOf fetchRaw now anime)
  | Except.error _ => none

/-- The `results` entry a batch member contributes, if its write
succeeds. -/
def batchSuccess (fetchRaw : String → Except String AnimeInfo)
    (writeResult : String → Except String Unit) (now : String)
    (anime : BasicAnime) : Option Artifact :=
  match writeResult anime.id with
  | Except.ok _ => some (processedOf fetchRaw now anime)
  | Except.error _ => none

/-- The log line a batch member contributes, if its write fails. -/
def batchFailure (writeResult : String → Except String Unit)
    (anime : BasicAnime) : Option String :=
  match writeResult anime.id with
  | Except.ok _ => none
  | Except.error e => some (processBatchLog anime e)

/-- The body of `main`'s dedup loop:
`if (!allAnime.has(anime.id)) allAnime.set(anime.id, anime)`, with the
Map's insertion order made explicit as a list. -/
def insertIfNew (acc : List BasicAnime) (anime : BasicAnime) : List BasicAnime :=
  if acc.any (fun x => x.id == anime.id) then acc else acc ++ [anime]

/-- Step 1 of `main`: fold every category listing into the `allAnime` map,
keeping the first occurrence of each id. -/
def collectUniqueAnime (categoryLists : List (List BasicAnime)) : List BasicAnime :=
  categoryLists.foldl (fun acc l => l.foldl insertIfNew acc) []

/-- The `animeToProcess` selection of `main`:
`Array.from(allAnime.values())` then
`if (limit && animeToProcess.length > limit) slice(0, limit)`
(a zero limit is falsy and applies no slice). -/
def selectAnimeToProcess (categoryLists : List (List BasicAnime))
    (limit : Option Nat) : List BasicAnime :=
  let all := collectUniqueAnime categoryLists
  match limit with
  | some n => if n ≠ 0 ∧ all.length > n then all.take n else all
  | none => all

/-- Fixture target: the provider id documented in the repository, with the
corresponding watch url. -/
def fixtureBasic : BasicAnime :=
  { id := "one-piece-dk6r"
  , title := "One Piece"
  , url := some "https://animekai.to/watch/one-piece-dk6r"
  , japaneseTitle := none
  , image := none
  , type := some "TV"
  , episodes := none
  , sub := none
  , dub := none }

/-- Fixture artifact: the fixture target processed with no detailed info. -/
def fixtureArtifact : Artifact :=
  processAnimeData fixtureBasic none "2026-01-01T00:00:00.000Z"

/-- Fixture episode with a given ordinal string. -/
def mkFixtureEpisode (n : String) : Episode :=
  { episode_number := n
  , episode_id := "ep-" ++ n
  , episode_title := "Episode " ++ n
  , has_videos := true }

/-- The ordinal fixture of the spec's sort-stability property:
episodes numbered "2", "1", "10", "x". -/
def fixtureOrdinalEpisodes : List Episode :=
  [mkFixtureEpisode "2", mkFixtureEpisode "1", mkFixtureEpisode "10", mkFixtureEpisode "x"]

/-- Fixture detailed info whose provider episode list arrives out of
order (episode 2 before episode 1). -/
def fixtureUnsortedInfo : AnimeInfo :=
  { title := some "Fixture Anime"
  , url := none
  , japaneseTitle := none
  , description := none
  , image := none
  , genres := none
  , status := none
  , type := none
  , studios := none
  , duration := none
  , season := none
  , releaseDate := none
  , producers := none
  , rating := none
  , totalEpisodes := none
  , episodes := some [⟨"fx-ep-2", some 2, none⟩, ⟨"fx-ep-1", some 1, none⟩] }

/-- Fixture detailed info with a single episode that carries no payload at
all: no id, no number, no title, and in particular nothing indicating any
video content. -/
def fixtureBareEpisodeInfo : AnimeInfo :=
  { fixtureUnsortedInfo with
    title := some "Bare Fixture"
  , episodes := some [⟨"", none, none⟩] }

/-- Concrete batch member whose write succeeds. -/
def witnessGood : BasicAnime :=
  { fixtureBasic with id := "good-anime", title := "Good" }

/-- Concrete batch member whose write fails. -/
def witnessBad : BasicAnime :=
  { fixtureBasic with id := "bad-anime", title := "Bad" }

/-- Concrete provider oracle that always fails (the `fetchAnimeInfo` catch
turns this into `null`). -/
def witnessFetch : String → Except String AnimeInfo :=
  fun _ => Except.error "network down"

/-- Concrete write oracle that throws for the bad target only. -/
def witnessWrite : String → Except String Unit :=
  fun i => if i = "bad-anime" then Except.error "disk full" else Except.ok ()

/-- Concrete initial run state. -/
def witnessState : RunState :=
  { savedFiles := [], results := [], errorLogs := [] }

/-! ## Supporting lemmas -/

/-- RFC 1321 test vector MD5("") = d41d8cd98f00b204e9800998ecf8427e:
the embedded MD5 core really is the standard MD5 algorithm on byte input. -/
theorem md5_rfc1321_empty :
    md5OfWords (convertToWordArray []) = "d41d8cd98f00b204e9800998ecf8427e" := by
  decide

/-- RFC 1321 test vector MD5("abc") = 900150983cd24fb0d6963f7d28e17f72. -/
theorem md5_rfc1321_abc :
    md5OfWords (convertToWordArray (utf8Bytes "abc"))
      = "900150983cd24fb0d6963f7d28e17f72" := by
  decide

/-- Every character of the whitespace-collapsed list is either the inserted
underscore or a non-whitespace character of the input. -/
theorem mem_collapseWsAux (c : Char) (l : List Char) :
    ∀ prevWs, c ∈ collapseWsAux prevWs l →
      c = '_' ∨ (c ∈ l ∧ isJsWhitespace c = false) := by
  induction l with
  | nil => intro prevWs h; simp [collapseWsAux] at h
  | cons x rest ih =>
    intro prevWs h
    by_cases hx : isJsWhitespace x = true
    · rw [collapseWsAux, if_pos hx] at h
      cases prevWs with
      | true =>
        rcases ih true h with h1 | ⟨h2, h3⟩
        · exact Or.inl h1
        · exact Or.inr ⟨List.mem_cons_of_mem _ h2, h3⟩
      | false =>
        rcases List.mem_cons.mp h with rfl | h2
        · exact Or.inl rfl
        · rcases ih true h2 with h1 | ⟨h3, h4⟩
          · exact Or.inl h1
          · exact Or.inr ⟨List.mem_cons_of_mem _ h3, h4⟩
    · rw [collapseWsAux, if_neg hx] at h
      rcases List.mem_cons.mp h with rfl | h2
      · exact Or.inr ⟨List.mem_cons_self _ _, by simpa using hx⟩
      · rcases ih false h2 with h1 | ⟨h3, h4⟩
        · exact Or.inl h1
        · exact Or.inr ⟨List.mem_cons_of_mem _ h3, h4⟩

/-- Trimming only removes characters. -/
theorem mem_jsTrim {c : Char} {l : List Char} (h : c ∈ jsTrim l) : c ∈ l := by
  unfold jsTrim at h
  rw [List.mem_reverse] at h
  have h1 := (List.dropWhile_sublist _).subset h
  rw [List.mem_reverse] at h1
  exact (List.dropWhile_sublist _).subset h1

/-- ASCII-only strings have identical UTF-16 code units and UTF-8 bytes. -/
theorem utf16_eq_utf8_of_ascii (s : String) (h : ∀ c ∈ s.data, c.toNat < 128) :
    utf16CodeUnits s = utf8Bytes s := by
  unfold utf16CodeUnits utf8Bytes
  congr 1
  apply List.map_congr_left
  intro c hc
  have hlt := h c hc
  unfold utf16EncodeChar utf8EncodeChar
  rw [if_pos (by omega), if_pos (by omega)]

/-- Membership after stable insertion: the new element or an old one. -/
theorem mem_insertByKey {z x : Episode} :
    ∀ l, z ∈ insertByKey x l → z = x ∨ z ∈ l := by
  intro l
  induction l with
  | nil => intro h; simpa [insertByKey] using h
  | cons y ys ih =>
    intro h
    by_cases hlt : epSortKey y < epSortKey x
    · rw [insertByKey, if_pos hlt] at h
      rcases List.mem_cons.mp h with rfl | h2
      · exact Or.inr (List.mem_cons_self _ _)
      · rcases ih h2 with h1 | h3
        · exact Or.inl h1
        · exact Or.inr (List.mem_cons_of_mem _ h3)
    · rw [insertByKey, if_neg hlt] at h
      rcases List.mem_cons.mp h with rfl | h2
      · exact Or.inl rfl
      · exact Or.inr h2

/-- Stable insertion preserves comparator-sortedness. -/
theorem pairwise_insertByKey {x : Episode} {l : List Episode}
    (h : List.Pairwise (fun a b => epSortKey a ≤ epSortKey b) l) :
    List.Pairwise (fun a b => epSortKey a ≤ epSortKey b) (insertByKey x l) := by
  induction l with
  | nil => simp [insertByKey]
  | cons y ys ih =>
    rcases List.pairwise_cons.mp h with ⟨hy, hys⟩
    by_cases hlt : epSortKey y < epSortKey x
    · rw [insertByKey, if_pos hlt]
      refine List.pairwise_cons.mpr ⟨?_, ih hys⟩
      intro z hz
      rcases mem_insertByKey ys hz with rfl | hz2
      · exact le_of_lt hlt
      · exact hy z hz2
    · rw [insertByKey, if_neg hlt]
      refine List.pairwise_cons.mpr ⟨?_, h⟩
      intro z hz
      rcases List.mem_cons.mp hz with rfl | hz2
      · exact not_lt.mp hlt
      · exact le_trans (not_lt.mp hlt) (hy z hz2)

/-- The consumer-side episode sort is sorted ascending by its key. -/
theorem pairwise_jsSortEpisodes (eps : List Episode) :
    List.Pairwise (fun a b => epSortKey a ≤ epSortKey b) (jsSortEpisodes eps) := by
  induction eps with
  | nil => simp [jsSortEpisodes]
  | cons x xs ih => exact pairwise_insertByKey ih

/-- Running `processBatch` appends exactly the per-target contributions:
saved files and results for the targets whose write succeeds, one log line
for each target whose write throws. -/
theorem processBatch_characterization (fetchRaw : String → Except String AnimeInfo)
    (writeResult : String → Except String Unit) (now : String) :
    ∀ (batch : List BasicAnime) (st : RunState),
      processBatch fetchRaw writeResult now st batch =
        { savedFiles := st.savedFiles ++ batch.filterMap (batchSavedEntry fetchRaw writeResult now)
        , results := st.results ++ batch.filterMap (batchSuccess fetchRaw writeResult now)
        , errorLogs := st.errorLogs ++ batch.filterMap (batchFailure writeResult) } := by
  intro batch
  induction batch with
  | nil => intro st; simp [processBatch]
  | cons a rest ih =>
    intro st
    have h1 : processBatch fetchRaw writeResult now st (a :: rest)
        = processBatch fetchRaw writeResult now
            (processBatchStep fetchRaw writeResult now st a) rest := rfl
    rw [h1, ih]
    cases hw : writeResult a.id with
    | ok u =>
        simp [processBatchStep, batchSavedEntry, batchSuccess, batchFailure,
          List.filterMap_cons, hw]
    | error e =>
        simp [processBatchStep, batchSavedEntry, batchSuccess, batchFailure,
          List.filterMap_cons, hw]

/-- Folding the episode count accumulator equals the sum of the counts. -/
theorem foldl_add_available (l : List Artifact) :
    ∀ init : Nat, l.foldl (fun sum a => sum + a.available_episodes) init
      = init + (l.map Artifact.available_episodes).sum := by
  induction l with
  | nil => intro init; simp
  | cons a rest ih =>
    intro init
    simp only [List.foldl_cons, List.map_cons, List.sum_cons, ih]
    omega

/-- Inserting into the dedup accumulator preserves distinctness of ids. -/
theorem nodup_ids_insertIfNew (acc : List BasicAnime) (a : BasicAnime)
    (h : (acc.map BasicAnime.id).Nodup) :
    ((insertIfNew acc a).map BasicAnime.id).Nodup := by
  unfold insertIfNew
  by_cases hmem : acc.any (fun x => x.id == a.id) = true
  · rw [if_pos hmem]; exact h
  · rw [if_neg hmem]
    rw [List.map_append, List.nodup_append]
    refine ⟨h, by simp, ?_⟩
    simp only [List.any_eq_true, beq_iff_eq, not_exists, not_and] at hmem
    intro x hx
    rcases List.mem_map.mp hx with ⟨y, hy, rfl⟩
    simp only [List.map_cons, List.map_nil, List.mem_singleton]
    exact hmem y hy

/-- Folding one listing into the dedup accumulator preserves distinctness. -/
theorem nodup_ids_foldl_insertIfNew (l : List BasicAnime) :
    ∀ acc, (acc.map BasicAnime.id).Nodup →
      ((l.foldl insertIfNew acc).map BasicAnime.id).Nodup := by
  induction l with
  | nil => intro acc h; exact h
  | cons a rest ih => intro acc h; exact ih _ (nodup_ids_insertIfNew acc a h)

/-- The full dedup pass of `main` yields pairwise-distinct provider ids. -/
theorem nodup_ids_collectUniqueAnime (categoryLists : List (List BasicAnime)) :
    ((collectUniqueAnime categoryLists).map BasicAnime.id).Nodup := by
  unfold collectUniqueAnime
  have gen : ∀ acc : List BasicAnime, (acc.map BasicAnime.id).Nodup →
      ((categoryLists.foldl
          (fun (acc : List BasicAnime) (l : List BasicAnime) =>
            l.foldl insertIfNew acc) acc).map
        BasicAnime.id).Nodup := by
    induction categoryLists with
    | nil => intro acc h; exact h
    | cons l rest ih => intro acc h; exact ih _ (nodup_ids_foldl_insertIfNew l acc h)
  exact gen [] (by simp)

/-! ## Claim theorems -/

/-- C1: the spec requires the backend artifact key
(`sanitizeFilename(title) + '_' + getHash(...)` in `saveAnime`) to be
character-for-character the filename the browser recomputes
(`sanitizeFilename(title) + '_' + hashString(url)` in `loadAnimeData`).
Evaluating both at the fixture Target (title "One Piece", id
"one-piece-dk6r", url "https://animekai.to/watch/one-piece-dk6r") shows
they disagree: the backend hashes the provider id while the browser hashes
the url. -/
theorem c1_filename_mismatch :
    fixtureArtifact.title = "One Piece" ∧
      fixtureArtifact.url = some "https://animekai.to/watch/one-piece-dk6r" ∧
      (saveAnime fixtureArtifact).2
        ≠ loadAnimeDataFilename fixtureArtifact.title
            "https://animekai.to/watch/one-piece-dk6r" := by
  refine ⟨rfl, rfl, ?_⟩
  decide

/-- C2 counterexample: on the non-ASCII input "Pokémon" the browser's
`hashString` differs from the first 8 hex characters of the MD5 digest of
the UTF-8 bytes (which is `getHash`): the browser MD5 packs UTF-16 code
units as if they were single bytes. -/
theorem c2_counterexample : hashString "Pokémon" ≠ getHash "Pokémon" := by
  decide

/-- C2 (amended): for strings whose characters are all ASCII (code points
below 128), the browser's `hashString` agrees with the Node scraper's
`getHash`, i.e. with the first 8 hex characters of the MD5 digest of the
UTF-8 bytes; on non-ASCII input the two implementations diverge. -/
theorem c2_hash_agreement_ascii (s : String) (h : ∀ c ∈ s.data, c.toNat < 128) :
    hashString s = getHash s := by
  unfold hashString getHash
  rw [utf16_eq_utf8_of_ascii s h]

/-- Witness for C2 (amended) at the ASCII input "one-piece-dk6r". -/
theorem c2_hash_agreement_ascii_witness :
    hashString "one-piece-dk6r" = getHash "one-piece-dk6r" :=
  c2_hash_agreement_ascii "one-piece-dk6r" (by decide)

/-- C3 counterexample: a provider episode list arriving as 2, 1 is written
by `processAnimeData` in exactly that order — the Artifact's episode array
is not sorted by numeric ordinal at write time. -/
theorem c3_counterexample :
    ((processAnimeData fixtureBasic (some fixtureUnsortedInfo) "t").episodes.map
        Episode.episode_number) = ["2", "1"] ∧
      ¬ List.Pairwise (fun a b => epSortKey a ≤ epSortKey b)
          (processAnimeData fixtureBasic (some fixtureUnsortedInfo) "t").episodes := by
  refine ⟨by decide, ?_⟩
  intro h
  rw [show (processAnimeData fixtureBasic (some fixtureUnsortedInfo) "t").episodes
      = [mkScrapedEpisode ⟨"fx-ep-2", some 2, none⟩,
         mkScrapedEpisode ⟨"fx-ep-1", some 1, none⟩] from rfl] at h
  have h1 := (List.pairwise_cons.mp h).1 _ (List.mem_cons_self _ _)
  revert h1
  decide

/-- C3 (amended): `processAnimeData` writes the sub-records in the order
received from the provider (an order-preserving map, not a sort); the
deterministic ordering by numeric ordinal ascending with non-numeric
ordinals at rank 0 is produced by the consumer's sort in
`renderAnimeDetail` at read time. -/
theorem c3_write_order_and_consumer_sort (basicInfo : BasicAnime)
    (detailedInfo : Option AnimeInfo) (now : String) :
    (processAnimeData basicInfo detailedInfo now).episodes
        = (consumetEpisodes detailedInfo).map mkScrapedEpisode ∧
      ∀ eps : List Episode,
        List.Pairwise (fun a b => epSortKey a ≤ epSortKey b) (jsSortEpisodes eps) :=
  ⟨rfl, fun eps => pairwise_jsSortEpisodes eps⟩

/-- C4: `sanitizeFilename` outputs contain none of the filename-illegal
characters, no whitespace character (runs having been collapsed to single
underscores), and are at most 200 characters long. -/
theorem c4_sanitizeFilename_safe (title : String) :
    (∀ c ∈ (sanitizeFilename title).data,
        isIllegalFilenameChar c = false ∧ isJsWhitespace c = false) ∧
      (sanitizeFilename title).length ≤ 200 := by
  constructor
  · intro c hc
    have hc1 : c ∈ jsTrim (collapseWsAux false
        (title.data.filter (fun c => !(isIllegalFilenameChar c)))) :=
      List.take_subset _ _ hc
    have hc2 := mem_jsTrim hc1
    rcases mem_collapseWsAux c _ false hc2 with rfl | ⟨h3, h4⟩
    · exact ⟨by decide, by decide⟩
    · refine ⟨?_, h4⟩
      have := (List.mem_filter.mp h3).2
      simpa using this
  · have : (sanitizeFilename title).length
        = ((jsTrim (collapseWsAux false
            (title.data.filter (fun c => !(isIllegalFilenameChar c))))).take 200).length := rfl
    rw [this]
    exact List.length_take_le _ _

/-- C5 counterexample: an episode whose provider record carries no payload
at all (no id, no number, no title — nothing indicating any video content)
is still written with `has_videos = true`: the flag is the hardcoded
constant `true`, not a reflection of actual video content. -/
theorem c5_counterexample :
    ((processAnimeData fixtureBasic (some fixtureBareEpisodeInfo) "t").episodes.map
        Episode.has_videos) = [true] := by
  decide

/-- C5 (amended): `available_episodes` is computed at write time as the
length of the episode array; `has_videos`, however, is the constant `true`
on every written episode rather than a content-derived flag. -/
theorem c5_derived_fields (basicInfo : BasicAnime) (detailedInfo : Option AnimeInfo)
    (now : String) :
    (processAnimeData basicInfo detailedInfo now).available_episodes
        = (processAnimeData basicInfo detailedInfo now).episodes.length ∧
      ∀ ep ∈ (processAnimeData basicInfo detailedInfo now).episodes,
        ep.has_videos = true := by
  refine ⟨rfl, ?_⟩
  intro ep hep
  have hm : ep ∈ (consumetEpisodes detailedInfo).map mkScrapedEpisode := hep
  rcases List.mem_map.mp hm with ⟨e, _, rfl⟩
  rfl

/-- C6 counterexample: the write trace of `saveAnime` at the fixture
artifact is not of the write-to-temporary-then-rename shape the claim
describes. -/
theorem c6_counterexample :
    ¬ isWriteTempThenRename (saveAnime fixtureArtifact).1
        (animeDirConfig ++ "/" ++ saveAnimeFilename fixtureArtifact) := by
  rintro ⟨tmp, content, hne, h⟩
  have hlen := congrArg List.length h
  simp [saveAnime] at hlen

/-- C6 (amended): `saveAnime` performs a single direct `writeFileSync` of
the document at its final path — there is no temporary location and no
rename/commit step, so all-or-nothing visibility for concurrent readers is
not established by the code. -/
theorem c6_direct_write (a : Artifact) :
    (saveAnime a).1
      = [FsOp.writeFile (animeDirConfig ++ "/" ++ saveAnimeFilename a) a] := rfl

/-- C7: if the write for one Target of a batch throws, `processBatch`
catches it: the error is logged, the failed Target contributes nothing to
`results`, every other Target is still processed (the final `results` and
saved files are exactly the successful contributions, in batch order), and
files saved before the batch remain untouched. -/
theorem c7_failure_isolation (fetchRaw : String → Except String AnimeInfo)
    (writeResult : String → Except String Unit) (now : String)
    (batch : List BasicAnime) (st : RunState) (t : BasicAnime) (e : String)
    (hmem : t ∈ batch) (hfail : writeResult t.id = Except.error e) :
    processBatchLog t e ∈ (processBatch fetchRaw writeResult now st batch).errorLogs ∧
      batchSuccess fetchRaw writeResult now t = none ∧
      (processBatch fetchRaw writeResult now st batch).results
        = st.results ++ batch.filterMap (batchSuccess fetchRaw writeResult now) ∧
      (processBatch fetchRaw writeResult now st batch).savedFiles
        = st.savedFiles ++ batch.filterMap (batchSavedEntry fetchRaw writeResult now) := by
  rw [processBatch_characterization]
  refine ⟨?_, ?_, rfl, rfl⟩
  · exact List.mem_append_right _
      (List.mem_filterMap.mpr ⟨t, hmem, by simp [batchFailure, hfail]⟩)
  · simp [batchSuccess, hfail]

/-- Witness for C7 at a concrete two-target batch whose second write
throws. -/
theorem c7_failure_isolation_witness :
    processBatchLog witnessBad "disk full"
        ∈ (processBatch witnessFetch witnessWrite "t" witnessState
            [witnessGood, witnessBad]).errorLogs ∧
      batchSuccess witnessFetch witnessWrite "t" witnessBad = none ∧
      (processBatch witnessFetch witnessWrite "t" witnessState
          [witnessGood, witnessBad]).results
        = witnessState.results
            ++ [witnessGood, witnessBad].filterMap
                (batchSuccess witnessFetch witnessWrite "t") ∧
      (processBatch witnessFetch witnessWrite "t" witnessState
          [witnessGood, witnessBad]).savedFiles
        = witnessState.savedFiles
            ++ [witnessGood, witnessBad].filterMap
                (batchSavedEntry witnessFetch witnessWrite "t") :=
  c7_failure_isolation witnessFetch witnessWrite "t" [witnessGood, witnessBad]
    witnessState witnessBad "disk full" (by decide) rfl

/-- C8 counterexample: the episode comparator does not order the fixture
ordinals "2", "1", "10", "x" as 1, 2, 10, x — the non-numeric "x" falls
back to rank 0 and therefore sorts first, not last. -/
theorem c8_counterexample :
    (jsSortEpisodes fixtureOrdinalEpisodes).map Episode.episode_number
      ≠ ["1", "2", "10", "x"] := by
  decide

/-- C8 (amended): sorting the fixture ordinals "2", "1", "10", "x" with the
episode comparator (numeric parse, non-numeric fallback 0, ascending)
orders them x, 1, 2, 10: the fallback rank 0 places "x" first. -/
theorem c8_sort_order :
    (jsSortEpisodes fixtureOrdinalEpisodes).map Episode.episode_number
      = ["x", "1", "2", "10"] := by
  decide

/-- C9: `createIndex` emits exactly one summary entry per Artifact carrying
its title and episode counts, `total_anime` is the number of Artifacts, and
`total_episodes` is the sum of their `available_episodes` counts. -/
theorem c9_index_projection (animeList : List Artifact) (now : String) :
    (createIndex animeList now).total_anime = animeList.length ∧
      (createIndex animeList now).total_episodes
        = (animeList.map Artifact.available_episodes).sum ∧
      (createIndex animeList now).anime_list = animeList.map indexEntryOf ∧
      ∀ a : Artifact, (indexEntryOf a).title = a.title ∧
        (indexEntryOf a).available_episodes = a.available_episodes ∧
        (indexEntryOf a).total_episodes = a.total_episodes := by
  refine ⟨rfl, ?_, rfl, fun a => ⟨rfl, rfl, rfl⟩⟩
  simpa using foldl_add_available animeList 0

/-- C10: after enumerating all category listings (and applying the optional
limit), the Targets selected for processing by `main` carry pairwise
distinct provider ids: a Target appearing in several listings or pages is
deduplicated before processing. -/
theorem c10_unique_targets (categoryLists : List (List BasicAnime))
    (limit : Option Nat) :
    ((selectAnimeToProcess categoryLists limit).map BasicAnime.id).Nodup := by
  have h := nodup_ids_collectUniqueAnime categoryLists
  cases limit with
  | none => exact h
  | some n =>
    show ((if n ≠ 0 ∧ (collectUniqueAnime categoryLists).length > n
        then (collectUniqueAnime categoryLists).take n
        else collectUniqueAnime categoryLists).map BasicAnime.id).Nodup
    by_cases hc : n ≠ 0 ∧ (collectUniqueAnime categoryLists).length > n
    · rw [if_pos hc, List.map_take]
      exact (List.take_sublist _ _).nodup h
    · rw [if_neg hc]
      exact h

end AnimeScraper
